import Mathlib

/-!
Shallow embedding of the PyFMask detection pipeline (mtralka/PyFMask) and
proofs about it.

Conventions used throughout:

* A scene raster of height `h` and width `w` is a total function `ℕ → ℕ → α`;
  only the values at indices `i < h`, `j < w` are meaningful.  Rational numbers
  (`ℚ`) stand for the floating-point values of the Python code, booleans for
  numpy boolean rasters, naturals for small non-negative integer rasters.
* `np.percentile` is the linear-interpolation percentile of numpy's default
  method, reproduced in `percentileQ` below.
* Python's `int(x)` conversion (truncation toward zero) is `qtrunc` on `ℚ`
  and `truncR` on `ℝ`.
-/

unseal Rat.add Rat.mul Rat.sub Rat.inv

/-- Cells of an `h × w` grid in row-major order, as index pairs. -/
def cells (h w : ℕ) : List (ℕ × ℕ) :=
  (List.range h).flatMap (fun i => (List.range w).map (fun j => (i, j)))

/-- Number of `true` cells of a boolean raster inside the `h × w` region;
this is the embedding of `np.sum(mask == True)`. -/
def countMask (h w : ℕ) (m : ℕ → ℕ → Bool) : ℕ :=
  ((cells h w).filter (fun c => m c.1 c.2)).length

/-- Values of raster `g` at the cells where `m` holds, row-major: the
embedding of the numpy fancy-indexing expression `g[m]`. -/
def maskedVals (h w : ℕ) (m : ℕ → ℕ → Bool) (g : ℕ → ℕ → ℚ) : List ℚ :=
  ((cells h w).filter (fun c => m c.1 c.2)).map (fun c => g c.1 c.2)

/-- Floor of a rational as an integer (`⌊x⌋`), via flooring integer
division of numerator by denominator. -/
def qfloor (x : ℚ) : ℤ :=
  x.num.fdiv (x.den : ℤ)

/-- Python's `int(x)` on a rational: truncation toward zero. -/
def qtrunc (x : ℚ) : ℤ :=
  x.num.tdiv (x.den : ℤ)

/-- Embedding of `np.percentile(xs, q)` with numpy's default linear
interpolation between closest ranks: sort, let `hq = (n-1)·q/100`, and
interpolate between the ranks `⌊hq⌋` and `⌊hq⌋ + 1`.  The Python call
raises on an empty selection; we return 0 there (all uses below are
guarded by non-emptiness checks mirroring the source's own guards). -/
def percentileQ (xs : List ℚ) (q : ℚ) : ℚ :=
  let s := List.insertionSort (fun a b : ℚ => a ≤ b) xs
  let n := s.length
  if n = 0 then 0
  else
    let hq : ℚ := ((n : ℚ) - 1) * q / 100
    let i : ℕ := (qfloor hq).toNat
    let g : ℚ := hq - (i : ℚ)
    let a := s.getD i 0
    let b := s.getD (i + 1) a
    a + g * (b - a)

section FinalResults

/-!
Embedding of `FMask._compute_final_results` (src/pyfmask/main.py):
starting from a zero `uint8` array, paint `water_value` where `water > 0`,
then `snow_value` where `snow > 0`, then `cloud_shadow_value` where
`cloud_shadow > 0`, then `cloud_value` where `cloud > 0`, finally 255 on
the nodata mask.  Writes into the `uint8` array are reduced mod 256.
-/

/-- One `np.where(cond, v, acc)` paint step into a `uint8` array. -/
def paintWhere (cond : ℕ → ℕ → Bool) (v : ℕ) (acc : ℕ → ℕ → ℕ) :
    ℕ → ℕ → ℕ :=
  fun i j => if cond i j then v % 256 else acc i j

/-- Embedding of `FMask._compute_final_results`: the final label raster
built by the fixed painting sequence water, snow, cloud shadow, cloud,
nodata, each later write overwriting earlier ones. -/
def computeFinalResults (water snow cloud_shadow cloud : ℕ → ℕ → ℕ)
    (nodata_mask : ℕ → ℕ → Bool)
    (water_value snow_value cloud_shadow_value cloud_value : ℕ) :
    ℕ → ℕ → ℕ :=
  let a0 : ℕ → ℕ → ℕ := fun _ _ => 0
  let a1 := paintWhere (fun i j => 0 < water i j) water_value a0
  let a2 := paintWhere (fun i j => 0 < snow i j) snow_value a1
  let a3 := paintWhere (fun i j => 0 < cloud_shadow i j) cloud_shadow_value a2
  let a4 := paintWhere (fun i j => 0 < cloud i j) cloud_value a3
  paintWhere nodata_mask 255 a4

end FinalResults

section PotentialClouds

/-!
Embedding of `detect_potential_clouds` and its helper probability
functions (src/pyfmask/detectors/cloud/potential_clouds.py).

The helper `normalize_bt` of the same file draws a stratified random
sample with an unseeded `np.random.choice` and fits an OLS regression with
`statsmodels`, so its result is not a deterministic function of its numpy
arguments.  It is therefore passed to the embedding as an arbitrary
function parameter `normBt` with the same argument list
(bt, dem, idused, low_percent, high_percent); every theorem below
quantifies over all behaviours of `normBt`, hence holds for the source's
sampled regression in particular.  `normalize_bt` is called by the source
only when both the BT band and the DEM are present.
-/

/-- Record mirroring the `PotentialCloudPixels` dataclass fields used by
`detect_potential_clouds` (the `normalized_cirrus` field is not read
there). -/
structure PCPData where
  potential_pixels : ℕ → ℕ → Bool
  whiteness : ℕ → ℕ → ℚ
  hot : ℕ → ℕ → ℚ

/-- Record mirroring the `PotentialClouds` dataclass (src/pyfmask/classes.py)
with its default field values `temp_test_low = temp_test_high = 0`,
`bt_normalized_dem = None`. -/
structure PotentialCloudsResult where
  sum_clear_pixels : ℕ
  cloud : ℕ → ℕ → ℕ
  clear_land : ℕ → ℕ → Bool
  temp_test_low : ℚ := 0
  temp_test_high : ℚ := 0
  bt_normalized_dem : Option (ℕ → ℕ → ℚ) := none
  over_land_probability : ℕ → ℕ → ℚ
  over_water_probability : ℕ → ℕ → ℚ

/-- Embedding of `water_temperature_probability`: the high percentile of BT
over clear water, minus BT, divided by 400 (4 °C), clamped below at 0. -/
def water_temperature_probability (h w : ℕ) (bt : ℕ → ℕ → ℚ)
    (clear_water_mask : ℕ → ℕ → Bool) (high_percent : ℚ) : ℕ → ℕ → ℚ :=
  let bt_percentile := percentileQ (maskedVals h w clear_water_mask bt) (100 * high_percent)
  fun i j =>
    let p := (bt_percentile - bt i j) / 400
    if p < 0 then 0 else p

/-- Embedding of `water_brightness_probability`: SWIR1 / 1100 clamped to
[0, 1]. -/
def water_brightness_probability (swir1 : ℕ → ℕ → ℚ) : ℕ → ℕ → ℚ :=
  fun i j =>
    let p := swir1 i j / 1100
    let p := if p > 1 then 1 else p
    if p < 0 then 0 else p

/-- Embedding of `land_temperature_probability`: percentile-derived
`temp_test_low/high` (widened by ±400) and the temperature probability
`(temp_test_high − BT_n) / (temp_test_high − temp_test_low)` clamped below
at 0. -/
def land_temperature_probability (h w : ℕ) (bt_normalized_dem : ℕ → ℕ → ℚ)
    (idused : ℕ → ℕ → Bool) (low_percent high_percent : ℚ) :
    (ℕ → ℕ → ℚ) × ℚ × ℚ :=
  let over_clear_land := maskedVals h w idused bt_normalized_dem
  let temp_buffer : ℚ := 4 * 100
  let low_percentile := percentileQ over_clear_land (100 * low_percent)
  let high_percentile := percentileQ over_clear_land (100 * high_percent)
  let temp_test_low := low_percentile - temp_buffer
  let temp_test_high := high_percentile + temp_buffer
  let temp_limit := temp_test_high - temp_test_low
  (fun i j =>
    let p := (temp_test_high - bt_normalized_dem i j) / temp_limit
    if p < 0 then 0 else p,
   temp_test_low, temp_test_high)

/-- Embedding of `land_brightness_probability_hot`: HOT scaled between its
low percentile − 400 and high percentile + 400 over `idused`, clamped to
[0, 1]. -/
def land_brightness_probability_hot (h w : ℕ) (hot : ℕ → ℕ → ℚ)
    (idused : ℕ → ℕ → Bool) (low_percent high_percent : ℚ) : ℕ → ℕ → ℚ :=
  let over_clear_land := maskedVals h w idused hot
  let low_hot_percentile := percentileQ over_clear_land (100 * low_percent) - 400
  let high_hot_percentile := percentileQ over_clear_land (100 * high_percent) + 400
  fun i j =>
    let p := (hot i j - low_hot_percentile) / (high_hot_percentile - low_hot_percentile)
    let p := if p < 0 then 0 else p
    if p > 1 then 1 else p

/-- Embedding of `spectral_variance_probability`: saturation-corrected
NDSI/NDVI, absolute values, `1 − max(|NDSI|, |NDVI|, |NDBI|, whiteness)`. -/
def spectral_variance_probability (ndsi ndvi ndbi : ℕ → ℕ → ℚ)
    (vis_saturation : ℕ → ℕ → Bool) (whiteness : ℕ → ℕ → ℚ) : ℕ → ℕ → ℚ :=
  fun i j =>
    let s := if vis_saturation i j ∧ ndsi i j < 0 then 0 else ndsi i j
    let v := if vis_saturation i j ∧ ndvi i j > 0 then 0 else ndvi i j
    1 - max (max (max |s| |v|) |ndbi i j|) (whiteness i j)

/-- Embedding of `detect_potential_clouds`.  Band rasters are passed as the
fields read from `band_data` (`NIR`, `SWIR1`, optional `CIRRUS`, optional
`BT`) plus the optional DEM raster; `normBt` stands for the
nondeterministic `normalize_bt` as explained above.  The defaulted
parameters mirror the Python defaults `clear_pixels_threshold = 40000`,
`low_percent = 0.175`, `high_percent = 0.825`. -/
structure LandPath where
  land_probability_temperature : ℕ → ℕ → ℚ
  temp_test_low : ℚ
  temp_test_high : ℚ
  bt_normalized_dem : Option (ℕ → ℕ → ℚ)
  land_probability_brightness : ℕ → ℕ → ℚ

/-- The land branch of `detect_potential_clouds`: the temperature path when
both BT and DEM are present (`if bt is not None and dem is not None`),
otherwise the HOT brightness path. -/
def landBranch (h w : ℕ) (bt dem : Option (ℕ → ℕ → ℚ)) (hot : ℕ → ℕ → ℚ)
    (idused : ℕ → ℕ → Bool)
    (normBt : (ℕ → ℕ → ℚ) → (ℕ → ℕ → ℚ) → (ℕ → ℕ → Bool) → ℚ → ℚ → (ℕ → ℕ → ℚ))
    (low_percent high_percent : ℚ) : LandPath :=
  match bt, dem with
  | some btg, some demg =>
      let bt_normalized_dem := normBt btg demg idused low_percent high_percent
      let ltp := land_temperature_probability h w bt_normalized_dem idused
        low_percent high_percent
      { land_probability_temperature := ltp.1
        temp_test_low := ltp.2.1
        temp_test_high := ltp.2.2
        bt_normalized_dem := some bt_normalized_dem
        land_probability_brightness := fun _ _ => 1 }
  | _, _ =>
      { land_probability_temperature := fun _ _ => 1
        temp_test_low := 0
        temp_test_high := 0
        bt_normalized_dem := none
        land_probability_brightness :=
          land_brightness_probability_hot h w hot idused low_percent high_percent }

/-- The `over_water_probability_temperature` selection of
`detect_potential_clouds`: the water-temperature probability when BT is
present and there are more than 100 clear-water pixels, else the constant
1. -/
def waterTempSelect (h w : ℕ) (bt : Option (ℕ → ℕ → ℚ))
    (clear_water_mask : ℕ → ℕ → Bool) (high_percent : ℚ)
    (nClearWater : ℕ) : ℕ → ℕ → ℚ :=
  match bt with
  | some btg =>
      if nClearWater > 100 then
        water_temperature_probability h w btg clear_water_mask high_percent
      else fun _ _ => 1
  | none => fun _ _ => 1

/-- The guard branch of `detect_potential_clouds` taken when
`sum_clear_pixels ≤ clear_pixels_threshold`: every clear pixel becomes
cloud, nodata is zeroed, both probability rasters are the constant 100
(`100 * np.ones(...).astype(np.uint8)`), and `clear_land` is returned as
the still-zero `idused` array. -/
def guardBranch (sum_clear_pixels : ℕ) (clear_pixels nodata_mask : ℕ → ℕ → Bool) :
    PotentialCloudsResult :=
  { sum_clear_pixels := sum_clear_pixels
    cloud := fun i j =>
      if nodata_mask i j then 0 else if clear_pixels i j then 1 else 0
    clear_land := fun _ _ => false
    over_land_probability := fun _ _ => 100
    over_water_probability := fun _ _ => 100 }

/-- The main (non-guard) branch of `detect_potential_clouds`. -/
def mainBranch (h w : ℕ)
    (swir1 : ℕ → ℕ → ℚ) (cirrus bt : Option (ℕ → ℕ → ℚ))
    (dem : Option (ℕ → ℕ → ℚ))
    (pcp : PCPData)
    (nodata_mask water : ℕ → ℕ → Bool)
    (thin_cirrus_weight cloud_probability_threshold : ℚ)
    (ndsi ndvi ndbi : ℕ → ℕ → ℚ)
    (vis_saturation : ℕ → ℕ → Bool)
    (normBt : (ℕ → ℕ → ℚ) → (ℕ → ℕ → ℚ) → (ℕ → ℕ → Bool) → ℚ → ℚ → (ℕ → ℕ → ℚ))
    (low_percent high_percent : ℚ)
    (sum_clear_pixels : ℕ)
    (clear_pixels clear_land_mask clear_water_mask : ℕ → ℕ → Bool) :
    PotentialCloudsResult :=
  let probability_thin_cloud : ℕ → ℕ → ℚ :=
    match cirrus with
    | some c => fun i j => if c i j / 400 < 0 then 0 else c i j / 400
    | none => fun _ _ => 0
  let over_land_probability_indicator : ℚ :=
    100 * (countMask h w clear_land_mask : ℚ) /
      (countMask h w (fun i j => !(nodata_mask i j)) : ℚ)
  let idused : ℕ → ℕ → Bool :=
    if over_land_probability_indicator ≥ 1 / 10 then clear_land_mask else clear_pixels
  let lp := landBranch h w bt dem pcp.hot idused normBt low_percent high_percent
  let over_land_probability_variance :=
    spectral_variance_probability ndsi ndvi ndbi vis_saturation pcp.whiteness
  let over_land_probability : ℕ → ℕ → ℚ := fun i j =>
    100 * (lp.land_probability_temperature i j * over_land_probability_variance i j *
      lp.land_probability_brightness i j +
      thin_cirrus_weight * probability_thin_cloud i j)
  let over_water_probability_temperature :=
    waterTempSelect h w bt clear_water_mask high_percent (countMask h w clear_water_mask)
  let over_water_probability_brightness := water_brightness_probability swir1
  let over_water_probability : ℕ → ℕ → ℚ := fun i j =>
    100 * (over_water_probability_temperature i j * over_water_probability_brightness i j +
      thin_cirrus_weight * probability_thin_cloud i j)
  let wclr_h : ℚ :=
    if countMask h w clear_water_mask > 0 then
      percentileQ (maskedVals h w clear_water_mask over_water_probability)
        (100 * high_percent)
    else 0
  let clr_h : ℚ :=
    if countMask h w clear_land_mask > 0 then
      percentileQ (maskedVals h w clear_land_mask over_land_probability)
        (100 * high_percent)
    else 0
  let dynamic_water_max := wclr_h + cloud_probability_threshold
  let dynamic_land_max := clr_h + cloud_probability_threshold
  let id_final_cld : ℕ → ℕ → Bool := fun i j =>
    pcp.potential_pixels i j &&
      ((decide (over_land_probability i j > dynamic_land_max) && !(water i j)) ||
       (decide (over_water_probability i j > dynamic_water_max) && water i j))
  let id_final_cld : ℕ → ℕ → Bool :=
    match bt, dem with
    | some _, some _ =>
        fun i j => id_final_cld i j ||
          decide ((lp.bt_normalized_dem.getD (fun _ _ => 0)) i j < lp.temp_test_low - 3500)
    | _, _ => id_final_cld
  { sum_clear_pixels := sum_clear_pixels
    cloud := fun i j =>
      if nodata_mask i j then 0 else if id_final_cld i j then 1 else 0
    clear_land := idused
    temp_test_low := lp.temp_test_low
    temp_test_high := lp.temp_test_high
    bt_normalized_dem := lp.bt_normalized_dem
    over_land_probability := over_land_probability
    over_water_probability := over_water_probability }

/-- Embedding of `detect_potential_clouds`.  Band rasters are passed as the
fields read from `band_data` (`NIR`, `SWIR1`, optional `CIRRUS`, optional
`BT`) plus the optional DEM raster; `normBt` stands for the
nondeterministic `normalize_bt` as explained above.  The defaulted
parameters mirror the Python defaults `clear_pixels_threshold = 40000`,
`low_percent = 0.175`, `high_percent = 0.825`.  (The NIR band is read by
the source only for array shapes, which the embedding carries as `h`, `w`.) -/
def detect_potential_clouds (h w : ℕ)
    (swir1 : ℕ → ℕ → ℚ) (cirrus bt : Option (ℕ → ℕ → ℚ))
    (dem : Option (ℕ → ℕ → ℚ))
    (pcp : PCPData)
    (nodata_mask water : ℕ → ℕ → Bool)
    (thin_cirrus_weight cloud_probability_threshold : ℚ)
    (ndsi ndvi ndbi : ℕ → ℕ → ℚ)
    (vis_saturation : ℕ → ℕ → Bool)
    (normBt : (ℕ → ℕ → ℚ) → (ℕ → ℕ → ℚ) → (ℕ → ℕ → Bool) → ℚ → ℚ → (ℕ → ℕ → ℚ))
    (clear_pixels_threshold : ℕ := 40000)
    (low_percent : ℚ := 175 / 1000)
    (high_percent : ℚ := 825 / 1000) : PotentialCloudsResult :=
  let clear_pixels : ℕ → ℕ → Bool :=
    fun i j => !(pcp.potential_pixels i j) && !(nodata_mask i j)
  let sum_clear_pixels := countMask h w clear_pixels
  let clear_land_mask : ℕ → ℕ → Bool := fun i j => clear_pixels i j && !(water i j)
  let clear_water_mask : ℕ → ℕ → Bool := fun i j => clear_pixels i j && water i j
  if sum_clear_pixels ≤ clear_pixels_threshold then
    guardBranch sum_clear_pixels clear_pixels nodata_mask
  else
    mainBranch h w swir1 cirrus bt dem pcp nodata_mask water
      thin_cirrus_weight cloud_probability_threshold ndsi ndvi ndbi
      vis_saturation normBt low_percent high_percent
      sum_clear_pixels clear_pixels clear_land_mask clear_water_mask

end PotentialClouds

section CirrusNormalization

/-!
Embedding of `normalize_cirrus_dem`
(src/pyfmask/detectors/cloud/potential_cloud_pixels.py, lines 108–153).
-/

/-- Embedding of `np.arange(a, b, step)` for a positive integer step. -/
def arangeZ (a b step : ℤ) : List ℤ :=
  (List.range ((b - a + step - 1).fdiv step).toNat).map (fun i => a + step * (i : ℤ))

/-- The non-stratified branch of `normalize_cirrus_dem` (taken when `dem is
None` or fewer than 100 valid DEM pixels): subtract the global low
percentile of CIRRUS over clear-sky non-nodata pixels, zero inside nodata,
clip negatives to 0. -/
def cirrusGlobalBranch (h w : ℕ) (cirrus : ℕ → ℕ → ℚ)
    (valid_clear_sky nodata_mask : ℕ → ℕ → Bool) (percentile : ℚ) :
    ℕ → ℕ → ℚ :=
  let percent := percentileQ (maskedVals h w valid_clear_sky cirrus) percentile
  fun i j =>
    let v := if !(nodata_mask i j) then cirrus i j - percent else 0
    if v < 0 then 0 else v

/-- Embedding of `normalize_cirrus_dem`.  With a DEM holding at least 100
valid pixels, the bin bounds are taken from the [0.001, 99.999] DEM
percentiles in 100-m steps, but the per-bin membership test of the source
is `mm = (cirrus >= k) & (cirrus < k + step)` — it compares the CIRRUS
values, not the elevations, against the elevation-derived bin bounds.  A
bin with no clear-sky member re-uses the previous bin's percentile
(`cirrus_lowest` starts at 0).  Negative results are clipped to 0 at the
end. -/
def normalize_cirrus_dem (h w : ℕ) (potential_pixels : ℕ → ℕ → Bool)
    (cirrus : ℕ → ℕ → ℚ) (nodata_mask : ℕ → ℕ → Bool)
    (dem : Option (ℕ → ℕ → ℚ)) (percentile : ℚ := 2) : ℕ → ℕ → ℚ :=
  let valid_clear_sky : ℕ → ℕ → Bool :=
    fun i j => !(potential_pixels i j) && !(nodata_mask i j)
  match dem with
  | none => cirrusGlobalBranch h w cirrus valid_clear_sky nodata_mask percentile
  | some demg =>
    let dem_mask : ℕ → ℕ → Bool := fun i j => decide (demg i j ≠ -9999)
    if countMask h w dem_mask < 100 then
      cirrusGlobalBranch h w cirrus valid_clear_sky nodata_mask percentile
    else
      let dem_start := qtrunc (percentileQ (maskedVals h w dem_mask demg) (1 / 1000))
      let dem_end := qtrunc (percentileQ (maskedVals h w dem_mask demg) (99999 / 1000))
      let state := (arangeZ dem_start (dem_end + 100) 100).foldl
        (fun (st : ℚ × (ℕ → ℕ → ℚ)) k =>
          let mm : ℕ → ℕ → Bool := fun i j =>
            decide (cirrus i j ≥ (k : ℚ)) && decide (cirrus i j < (k : ℚ) + 100)
          let mm_clear : ℕ → ℕ → Bool := fun i j => mm i j && valid_clear_sky i j
          let lowest : ℚ :=
            if countMask h w mm_clear > 0 then
              percentileQ (maskedVals h w mm_clear cirrus) percentile
            else st.1
          (lowest, fun i j =>
            if !(nodata_mask i j) && mm i j then cirrus i j - lowest else st.2 i j))
        ((0 : ℚ), fun _ _ => (0 : ℚ))
      fun i j => if state.2 i j < 0 then 0 else state.2 i j

/-- Modelled from the spec: the elevation-stratified cirrus normalisation
as §4.3 words it ("stratify by elevation in 100-m bins across
[0.001, 99.999] percentiles and subtract the per-bin 2nd-percentile"),
for comparison with `normalize_cirrus_dem`: identical except that the bin
membership test compares the DEM elevation, not the CIRRUS value, against
the bin bounds. -/
def normalize_cirrus_dem_spec (h w : ℕ) (potential_pixels : ℕ → ℕ → Bool)
    (cirrus : ℕ → ℕ → ℚ) (nodata_mask : ℕ → ℕ → Bool)
    (dem : Option (ℕ → ℕ → ℚ)) (percentile : ℚ := 2) : ℕ → ℕ → ℚ :=
  let valid_clear_sky : ℕ → ℕ → Bool :=
    fun i j => !(potential_pixels i j) && !(nodata_mask i j)
  match dem with
  | none => cirrusGlobalBranch h w cirrus valid_clear_sky nodata_mask percentile
  | some demg =>
    let dem_mask : ℕ → ℕ → Bool := fun i j => decide (demg i j ≠ -9999)
    if countMask h w dem_mask < 100 then
      cirrusGlobalBranch h w cirrus valid_clear_sky nodata_mask percentile
    else
      let dem_start := qtrunc (percentileQ (maskedVals h w dem_mask demg) (1 / 1000))
      let dem_end := qtrunc (percentileQ (maskedVals h w dem_mask demg) (99999 / 1000))
      let state := (arangeZ dem_start (dem_end + 100) 100).foldl
        (fun (st : ℚ × (ℕ → ℕ → ℚ)) k =>
          let mm : ℕ → ℕ → Bool := fun i j =>
            decide (demg i j ≥ (k : ℚ)) && decide (demg i j < (k : ℚ) + 100)
          let mm_clear : ℕ → ℕ → Bool := fun i j => mm i j && valid_clear_sky i j
          let lowest : ℚ :=
            if countMask h w mm_clear > 0 then
              percentileQ (maskedVals h w mm_clear cirrus) percentile
            else st.1
          (lowest, fun i j =>
            if !(nodata_mask i j) && mm i j then cirrus i j - lowest else st.2 i j))
        ((0 : ℚ), fun _ _ => (0 : ℚ))
      fun i j => if state.2 i j < 0 then 0 else state.2 i j

end CirrusNormalization

section ShadowGeometry

/-!
Embedding of `shadow` (src/pyfmask/detectors/cloud_shadow/match_cloud_shadows.py,
lines 21–27).  The Python function computes with float trigonometry; the
embedding idealises floats as real numbers.  `int(x)` is truncation toward
zero (`truncR`), and no clamping of any kind is applied to the
displacements (Python integers are unbounded, so `int(dx)` cannot
overflow, but the values need not fit any fixed machine width).
-/

/-- Python's `int(x)` on a real: truncation toward zero. -/
noncomputable def truncR (x : ℝ) : ℤ :=
  if 0 ≤ x then ⌊x⌋ else ⌈x⌉

/-- Embedding of `shadow(H, sun_elev, sun_azim)`: `L = H / tan(el·π/180)`,
`dx = int(−L·sin(az·π/180))`, `dy = int(L·cos(az·π/180))`. -/
noncomputable def shadow (H sun_elev sun_azim : ℝ) : ℤ × ℤ :=
  let L := H / Real.tan (sun_elev * Real.pi / 180)
  let dx := -L * Real.sin (sun_azim * Real.pi / 180)
  let dy := L * Real.cos (sun_azim * Real.pi / 180)
  (truncR dx, truncR dy)

end ShadowGeometry

section Pipeline

/-!
Embedding of the orchestration in `FMask.run` (src/pyfmask/main.py).

The individual detectors called by `run` are passed in as function
parameters whose argument lists mirror the call sites in `run`,
`_run_cloud_detection` and `_run_cloud_shadow_detection`; the claims
settled here are about the orchestration's data flow (which stage output
feeds which stage), so they quantify over all behaviours of those
detectors.  `P` stands for the `platform_data` record (including its
`band_data` mapping, which `run` mutates twice: the CIRRUS replacement
after PCP and the BT replacement after potential clouds — modelled as the
update functions `update_cirrus` and `update_bt`); `Dem`, `Gswo`, `Pcp`
and `Psh` stand for the DEM record, GSWO record, the
`PotentialCloudPixels` record and the potential-shadow raster. -/

/-- Rational-valued raster on the scene grid. -/
abbrev Raster : Type := ℕ → ℕ → ℚ

/-- Boolean raster on the scene grid. -/
abbrev MaskGrid : Type := ℕ → ℕ → Bool

/-- Small non-negative integer raster on the scene grid. -/
abbrev IGrid : Type := ℕ → ℕ → ℕ

/-- Embedding of `FMask._run_cloud_shadow_detection`: when
`sum_clear_pixels < pixel_limit` the shadow raster is
`np.where(cloud == 0, 1, 0)` and neither the potential-shadow detector nor
the matcher is invoked; otherwise the detector and matcher run with the
argument lists of the source. -/
def run_cloud_shadow_detection {P Dem Psh : Type}
    (platform_data : P) (dem_data : Option Dem)
    (potential_clouds : PotentialCloudsResult)
    (cloud : MaskGrid) (all_water : IGrid)
    (detect_potential_cloud_shadow_pixels : P → Option Dem → MaskGrid → Psh)
    (match_cloud_shadows :
      MaskGrid → ℕ → IGrid → Psh → P → Option Dem → ℚ → ℚ → IGrid)
    (pixel_limit : ℕ := 40000) : IGrid :=
  if potential_clouds.sum_clear_pixels < pixel_limit then
    fun i j => if cloud i j = false then 1 else 0
  else
    match_cloud_shadows cloud potential_clouds.sum_clear_pixels all_water
      (detect_potential_cloud_shadow_pixels platform_data dem_data
        potential_clouds.clear_land)
      platform_data dem_data
      potential_clouds.temp_test_low potential_clouds.temp_test_high

/-- The stage functions `FMask.run` dispatches to, bundled; each field's
argument list mirrors the corresponding call site in main.py. -/
structure FMaskStages (P Dem Gswo Pcp Psh : Type) where
  create_ndvi : P → Raster
  create_ndsi : P → Raster
  create_ndbi : P → Raster
  detect_snow : Raster → P → MaskGrid
  detect_water : P → Raster → MaskGrid → MaskGrid → Option Gswo → IGrid × IGrid
  create_cdi : P → Raster
  detect_potential_cloud_pixels :
    Raster → Raster → P → MaskGrid → Option Dem → MaskGrid → Pcp
  update_cirrus : P → Pcp → P
  detect_potential_clouds :
    P → Option Dem → Pcp → MaskGrid → IGrid → ℚ → ℚ → Raster → Raster → Raster →
      MaskGrid → PotentialCloudsResult
  update_bt : P → PotentialCloudsResult → P
  enhance_line : Raster → Raster
  detect_false_positive_cloud_pixels :
    P → Raster → Raster → MaskGrid → IGrid → IGrid → Option Raster → Option Dem →
      MaskGrid
  erode_commissons : Option Raster → IGrid → MaskGrid → IGrid → ℕ → MaskGrid
  detect_potential_cloud_shadow_pixels : P → Option Dem → MaskGrid → Psh
  match_cloud_shadows :
    MaskGrid → ℕ → IGrid → Psh → P → Option Dem → ℚ → ℚ → IGrid
  dilate_mask : MaskGrid → ℕ → MaskGrid
  dilate_grid : IGrid → ℕ → IGrid

/-- The rasters `FMask.run` leaves on the controller object. -/
structure FMaskOutputs where
  snow : MaskGrid
  water : IGrid
  all_water : IGrid
  cdi : Option Raster
  absolute_snow : MaskGrid
  cloud : MaskGrid
  cloud_shadow : IGrid
  results : IGrid

/-- Embedding of the data flow of `FMask.run` after platform/aux
extraction: spectral composites, snow, water, CDI (Sentinel-2 only),
absolute snow, the cloud-detection pipeline of `_run_cloud_detection`, the
cloud-shadow stage, the optional dilations and the final composition.  The
absolute-snow detector is a separate parameter (the quantity varied by the
frame claim); `computeFinalResults` consumes the boolean snow and cloud
masks through their `> 0` indicator grids exactly as `np.where(mask > 0,
...)` does. -/
def fmask_run {P Dem Gswo Pcp Psh : Type}
    (st : FMaskStages P Dem Gswo Pcp Psh)
    (platform_data : P) (dem_data : Option Dem) (gswo_data : Option Gswo)
    (sensor : String) (nodata_mask vis_saturation : MaskGrid)
    (probability_weight cloud_threshold : ℚ) (erode_pixels : ℕ)
    (dilated_cloud_px dilated_shadow_px dilated_snow_px : ℕ)
    (water_value snow_value cloud_shadow_value cloud_value : ℕ)
    (detect_absolute_snow : String → MaskGrid → P → MaskGrid → Raster → MaskGrid) :
    FMaskOutputs :=
  let ndvi := st.create_ndvi platform_data
  let ndsi := st.create_ndsi platform_data
  let ndbi := st.create_ndbi platform_data
  let snow := st.detect_snow ndsi platform_data
  let wpair := st.detect_water platform_data ndvi nodata_mask snow gswo_data
  let water := wpair.1
  let all_water := wpair.2
  let cdi : Option Raster :=
    if sensor == "S2_MSI" then some (st.create_cdi platform_data) else none
  let absolute_snow :=
    detect_absolute_snow sensor snow platform_data vis_saturation ndsi
  let pcp := st.detect_potential_cloud_pixels ndsi ndvi platform_data
    vis_saturation dem_data nodata_mask
  let platform_data := st.update_cirrus platform_data pcp
  let potential_clouds := st.detect_potential_clouds platform_data dem_data pcp
    nodata_mask water probability_weight cloud_threshold ndsi ndvi ndbi
    vis_saturation
  let platform_data := st.update_bt platform_data potential_clouds
  let ndbi := st.enhance_line ndbi
  let potential_false_positives := st.detect_false_positive_cloud_pixels
    platform_data ndbi ndvi snow water potential_clouds.cloud cdi dem_data
  let cloud := st.erode_commissons cdi potential_clouds.cloud
    potential_false_positives water erode_pixels
  let cloud_shadow := run_cloud_shadow_detection platform_data dem_data
    potential_clouds cloud all_water st.detect_potential_cloud_shadow_pixels
    st.match_cloud_shadows
  let snow := if dilated_snow_px > 0 then st.dilate_mask snow dilated_snow_px else snow
  let cloud_shadow :=
    if dilated_shadow_px > 0 then st.dilate_grid cloud_shadow dilated_shadow_px
    else cloud_shadow
  let cloud :=
    if dilated_cloud_px > 0 then st.dilate_mask cloud dilated_cloud_px else cloud
  let results := computeFinalResults water
    (fun i j => if snow i j then 1 else 0) cloud_shadow
    (fun i j => if cloud i j then 1 else 0) nodata_mask
    water_value snow_value cloud_shadow_value cloud_value
  { snow := snow, water := water, all_water := all_water, cdi := cdi
    absolute_snow := absolute_snow, cloud := cloud
    cloud_shadow := cloud_shadow, results := results }

end Pipeline

section Morphology

/-!
Embedding of `erode_commissons` and the morphological primitives it uses
(src/pyfmask/raster_utilities/morphology.py, lines 49–149).

* `skimage.morphology.disk(r)` is the set of integer offsets with
  `di² + dj² ≤ r²`.
* `skimage.morphology.binary_erosion` treats pixels beyond the image
  border as `True`; `binary_dilation` treats them as `False`.
* `skimage.measure.label(mask, connectivity=2)` assigns one positive label
  per 8-connected component of the mask and 0 to the background.
  `erode_commissons` consumes labels only through `np.unique`/`np.isin`
  membership tests, which are invariant under injective relabelling, so
  the embedding `componentLabel` may use its own canonical labels (the
  minimum row-major index of the component, plus one), computed by
  min-label propagation run `h·w` times (an upper bound on any path
  length, so the propagation has converged).
* `skimage.morphology.remove_small_objects(mask, s, connectivity=2)`
  keeps exactly the components of size at least `s`.
-/

/-- Offsets of `skimage.morphology.disk(r)`: `di² + dj² ≤ r²`. -/
def diskOffsets (r : ℕ) : List (ℤ × ℤ) :=
  ((List.range (2 * r + 1)).flatMap (fun a =>
    (List.range (2 * r + 1)).map (fun b => ((a : ℤ) - r, (b : ℤ) - r)))).filter
    (fun o => o.1 ^ 2 + o.2 ^ 2 ≤ (r : ℤ) ^ 2)

/-- Mask lookup at signed coordinates with default `d` outside the
`h × w` image. -/
def getM (h w : ℕ) (m : MaskGrid) (d : Bool) (i j : ℤ) : Bool :=
  if 0 ≤ i ∧ i < (h : ℤ) ∧ 0 ≤ j ∧ j < (w : ℤ) then m i.toNat j.toNat else d

/-- Embedding of `skimage.morphology.binary_erosion` with a disk footprint
(border value `True`). -/
def binary_erosion (h w r : ℕ) (m : MaskGrid) : MaskGrid := fun i j =>
  (diskOffsets r).all (fun o => getM h w m true ((i : ℤ) + o.1) ((j : ℤ) + o.2))

/-- Embedding of `skimage.morphology.binary_dilation` with a disk
footprint (border value `False`). -/
def binary_dilation (h w r : ℕ) (m : MaskGrid) : MaskGrid := fun i j =>
  (diskOffsets r).any (fun o => getM h w m false ((i : ℤ) + o.1) ((j : ℤ) + o.2))

/-- The 8-connectivity neighbourhood offsets (the centre cell included,
harmlessly, in the min-label propagation). -/
def neighborhood9 : List (ℤ × ℤ) :=
  [(-1, -1), (-1, 0), (-1, 1), (0, -1), (0, 0), (0, 1), (1, -1), (1, 0), (1, 1)]

/-- Materialise an `h × w` integer grid into nested lists. -/
def tabulate (h w : ℕ) (f : ℕ → ℕ → ℕ) : List (List ℕ) :=
  (List.range h).map (fun i => (List.range w).map (f i))

/-- Lookup in a materialised grid, 0 outside. -/
def lget (L : List (List ℕ)) (i j : ℕ) : ℕ :=
  (L.getD i []).getD j 0

/-- Lookup in a materialised grid at signed coordinates, 0 outside. -/
def lgetZ (L : List (List ℕ)) (i j : ℤ) : ℕ :=
  if 0 ≤ i ∧ 0 ≤ j then lget L i.toNat j.toNat else 0

/-- Initial labels for component labelling: the row-major index plus one
on the mask, 0 off it. -/
def labelInit (h w : ℕ) (m : MaskGrid) : ℕ → ℕ → ℕ := fun i j =>
  if i < h ∧ j < w ∧ m i j then i * w + j + 1 else 0

/-- One step of min-label propagation over the 8-neighbourhood. -/
def labelStep (h w : ℕ) (m : MaskGrid) (L : List (List ℕ)) : ℕ → ℕ → ℕ :=
  fun i j =>
  if i < h ∧ j < w ∧ m i j then
    neighborhood9.foldl (fun acc o =>
      let v := lgetZ L ((i : ℤ) + o.1) ((j : ℤ) + o.2)
      if v ≠ 0 ∧ v < acc then v else acc) (lget L i j)
  else 0

/-- Iterate the propagation step `n` times. -/
def labelIter (h w : ℕ) (m : MaskGrid) : ℕ → List (List ℕ) → List (List ℕ)
  | 0, L => L
  | n + 1, L => labelIter h w m n (tabulate h w (labelStep h w m L))

/-- Embedding of `skimage.measure.label(mask, connectivity=2)` up to
injective relabelling: each 8-connected component receives its minimal
initial index as the common positive label; background is 0. -/
def componentLabel (h w : ℕ) (m : MaskGrid) : ℕ → ℕ → ℕ := fun i j =>
  lget (labelIter h w m (h * w) (tabulate h w (labelInit h w m))) i j

/-- Embedding of the `clouds_remaining`/`np.unique`/`np.isin` block of
`erode_commissons`: a pixel is in a remaining cloud iff its (nonzero)
label also occurs at some pixel that survived the erosion step. -/
def cloudRemaining (h w : ℕ) (cloud_labels : ℕ → ℕ → ℕ)
    (after_erosion : MaskGrid) : MaskGrid := fun i j =>
  decide (cloud_labels i j ≠ 0) &&
    (cells h w).any (fun c =>
      after_erosion c.1 c.2 && (cloud_labels c.1 c.2 == cloud_labels i j))

/-- Embedding of `skimage.morphology.remove_small_objects(mask, min_size,
connectivity=2)`: keep the pixels whose component has at least `min_size`
pixels. -/
def remove_small_objects (h w : ℕ) (m : MaskGrid) (min_size : ℕ) : MaskGrid :=
  let lab := componentLabel h w m
  fun i j =>
    decide (lab i j ≠ 0) &&
      decide (min_size ≤ ((cells h w).filter (fun c => lab c.1 c.2 == lab i j)).length)

/-- Embedding of `erode_commissons`: erode the cloud by a disk of radius
`erode_pixels`, drop eroded-away false-positive pixels, re-dilate by a
disk of radius `2·erode_pixels`, keep only the original components that
still have a surviving pixel, re-add cloud over water, and — when a CDI
raster is present (Sentinel-2) — drop small objects (area < 10 000)
without a confident pixel (CDI < −0.5) and finally remove components
smaller than 3 pixels. -/
def erode_commissons (h w : ℕ) (cdi : Option Raster) (potential_clouds : IGrid)
    (potential_false_positives : MaskGrid) (water : IGrid) (erode_pixels : ℕ) :
    MaskGrid :=
  let cloud : MaskGrid := fun i j => decide (0 < potential_clouds i j)
  let clouds_after_erosion := binary_erosion h w erode_pixels cloud
  let pixels_eroded : MaskGrid := fun i j =>
    !(clouds_after_erosion i j) && potential_false_positives i j
  let clouds_after_erosion2 : MaskGrid := fun i j =>
    if pixels_eroded i j then false else cloud i j
  let clouds_redilated := binary_dilation h w (2 * erode_pixels) clouds_after_erosion2
  let cloud_labels := componentLabel h w cloud
  let cloud_remaining := cloudRemaining h w cloud_labels clouds_after_erosion2
  let cloud2 : MaskGrid := fun i j =>
    (clouds_redilated i j && cloud_remaining i j) || ((water i j == 1) && cloud i j)
  match cdi with
  | none => cloud2
  | some cdig =>
    let large_objects := remove_small_objects h w cloud2 10000
    let small_objects : MaskGrid := fun i j => cloud2 i j && !(large_objects i j)
    let small_object_labels := componentLabel h w small_objects
    let confident_cloud_pixels : MaskGrid := fun i j => decide (cdig i j < -(1 / 2))
    let true_cloud : MaskGrid := fun i j =>
      (cells h w).any (fun c =>
        (if confident_cloud_pixels c.1 c.2 then small_object_labels c.1 c.2 else 0)
          == small_object_labels i j)
    let bright_surfaces : MaskGrid := fun i j => !(true_cloud i j) && small_objects i j
    let cloud3 : MaskGrid := fun i j => if bright_surfaces i j then false else cloud2 i j
    remove_small_objects h w cloud3 3

/-- The J-shaped seven-pixel cloud of the idempotence counterexample, as
the 0/1 grid `erode_commissons` receives. -/
def jCloud : IGrid := fun i j =>
  if (i == 1 && (j == 1 || j == 2 || j == 3)) || (i == 2 && j == 3) ||
     (i == 3 && (j == 1 || j == 2 || j == 3)) then 1 else 0

/-- False-positive candidates of the counterexample: every pixel except
(1, 1). -/
def jFalsePos : MaskGrid := fun i j => !(i == 1 && j == 1)

end Morphology

/-- C1: in the raster produced by `computeFinalResults`, a nodata pixel is
255 regardless of the classifier masks, and otherwise the label follows the
painting order water → snow → shadow → cloud with later wins, so a
non-nodata cloud pixel always receives `cloud_value`. -/
theorem final_results_painting_order
    (water snow cloud_shadow cloud : ℕ → ℕ → ℕ)
    (nodata_mask : ℕ → ℕ → Bool)
    (wv sv shv cv : ℕ)
    (hwv : wv < 256) (hsv : sv < 256) (hshv : shv < 256) (hcv : cv < 256)
    (i j : ℕ) :
    computeFinalResults water snow cloud_shadow cloud nodata_mask wv sv shv cv i j =
      if nodata_mask i j then 255
      else if 0 < cloud i j then cv
      else if 0 < cloud_shadow i j then shv
      else if 0 < snow i j then sv
      else if 0 < water i j then wv
      else 0 := by
  simp only [computeFinalResults, paintWhere]
  by_cases hnd : nodata_mask i j <;> simp [hnd]
  by_cases hc : 0 < cloud i j <;> simp [hc, Nat.mod_eq_of_lt hcv]
  by_cases hsh : 0 < cloud_shadow i j <;> simp [hsh, Nat.mod_eq_of_lt hshv]
  by_cases hs : 0 < snow i j <;> simp [hs, Nat.mod_eq_of_lt hsv]
  by_cases hw : 0 < water i j <;> simp [hw, Nat.mod_eq_of_lt hwv]

/-- Witness for C1: the painting-order theorem applied at a concrete pixel
that is simultaneously water, snow, shadow and cloud but not nodata, with
the default label codes 1/3/2/4; the result is the cloud code 4. -/
theorem final_results_painting_order_witness :
    computeFinalResults (fun _ _ => 1) (fun _ _ => 1) (fun _ _ => 1)
      (fun _ _ => 1) (fun _ _ => false) 1 3 2 4 0 0 = 4 := by
  have h := final_results_painting_order (fun _ _ => 1) (fun _ _ => 1)
    (fun _ _ => 1) (fun _ _ => 1) (fun _ _ => false) 1 3 2 4
    (by decide) (by decide) (by decide) (by decide) 0 0
  simpa using h

/-- C4: when the number of clear pixels (¬PCP ∧ ¬nodata) is at most the
clear-pixels threshold (40 000 by default), `detect_potential_clouds`
returns the cloud mask clear ∧ ¬nodata and both probability rasters are
the constant 100. -/
theorem detect_potential_clouds_guard_branch (h w : ℕ)
    (swir1 : ℕ → ℕ → ℚ) (cirrus bt dem : Option (ℕ → ℕ → ℚ))
    (pcp : PCPData) (nodata_mask water : ℕ → ℕ → Bool)
    (tw τ : ℚ) (ndsi ndvi ndbi : ℕ → ℕ → ℚ) (vis : ℕ → ℕ → Bool)
    (normBt : (ℕ → ℕ → ℚ) → (ℕ → ℕ → ℚ) → (ℕ → ℕ → Bool) → ℚ → ℚ → (ℕ → ℕ → ℚ))
    (threshold : ℕ) (lowp highp : ℚ)
    (hsum : countMask h w
      (fun i j => !(pcp.potential_pixels i j) && !(nodata_mask i j)) ≤ threshold)
    (i j : ℕ) :
    (detect_potential_clouds h w swir1 cirrus bt dem pcp nodata_mask water
        tw τ ndsi ndvi ndbi vis normBt threshold lowp highp).cloud i j =
      (if (!(pcp.potential_pixels i j) && !(nodata_mask i j)) && !(nodata_mask i j)
        then 1 else 0) ∧
    (detect_potential_clouds h w swir1 cirrus bt dem pcp nodata_mask water
        tw τ ndsi ndvi ndbi vis normBt threshold lowp highp).over_land_probability i j
      = 100 ∧
    (detect_potential_clouds h w swir1 cirrus bt dem pcp nodata_mask water
        tw τ ndsi ndvi ndbi vis normBt threshold lowp highp).over_water_probability i j
      = 100 := by
  have hc : detect_potential_clouds h w swir1 cirrus bt dem pcp nodata_mask water
      tw τ ndsi ndvi ndbi vis normBt threshold lowp highp =
      guardBranch (countMask h w
          (fun i j => !(pcp.potential_pixels i j) && !(nodata_mask i j)))
        (fun i j => !(pcp.potential_pixels i j) && !(nodata_mask i j)) nodata_mask := by
    rw [detect_potential_clouds]
    exact if_pos hsum
  rw [hc]
  refine ⟨?_, rfl, rfl⟩
  simp only [guardBranch]
  by_cases hnd : nodata_mask i j <;> simp [hnd]

/-- Witness for C4: a 1×1 scene with a single clear pixel (1 ≤ 40 000), on
which the guard branch makes the pixel cloud and the probabilities 100. -/
theorem detect_potential_clouds_guard_branch_witness :
    (detect_potential_clouds 1 1 (fun _ _ => 0) none none none
        ⟨fun _ _ => false, fun _ _ => 0, fun _ _ => 0⟩ (fun _ _ => false)
        (fun _ _ => false) 0 0 (fun _ _ => 0) (fun _ _ => 0) (fun _ _ => 0)
        (fun _ _ => false) (fun b _ _ _ _ => b)).cloud 0 0 = 1 ∧
    (detect_potential_clouds 1 1 (fun _ _ => 0) none none none
        ⟨fun _ _ => false, fun _ _ => 0, fun _ _ => 0⟩ (fun _ _ => false)
        (fun _ _ => false) 0 0 (fun _ _ => 0) (fun _ _ => 0) (fun _ _ => 0)
        (fun _ _ => false) (fun b _ _ _ _ => b)).over_land_probability 0 0 = 100 := by
  have h := detect_potential_clouds_guard_branch 1 1 (fun _ _ => 0) none none none
    ⟨fun _ _ => false, fun _ _ => 0, fun _ _ => 0⟩ (fun _ _ => false)
    (fun _ _ => false) 0 0 (fun _ _ => 0) (fun _ _ => 0) (fun _ _ => 0)
    (fun _ _ => false) (fun b _ _ _ _ => b) 40000 (175 / 1000) (825 / 1000)
    (by decide) 0 0
  exact ⟨h.1.trans (by decide), h.2.1⟩

/-- Counterexample for C5: a 1×1 scene whose only pixel is clear (PCP is
constantly false, nodata false).  With the default threshold the guard
branch fires (1 ≤ 40 000) and returns that pixel as cloud even though it
is not a potential cloud pixel and no extremely-cold override exists
(`bt_normalized_dem` is `none`): the returned cloud mask is not a subset
of PCP ∪ extremely-cold pixels. -/
theorem cloud_subset_pcp_counterexample :
    (detect_potential_clouds 1 1 (fun _ _ => 0) none none none
        ⟨fun _ _ => false, fun _ _ => 0, fun _ _ => 0⟩ (fun _ _ => false)
        (fun _ _ => false) 0 0 (fun _ _ => 0) (fun _ _ => 0) (fun _ _ => 0)
        (fun _ _ => false) (fun b _ _ _ _ => b)).cloud 0 0 = 1 ∧
    (detect_potential_clouds 1 1 (fun _ _ => 0) none none none
        ⟨fun _ _ => false, fun _ _ => 0, fun _ _ => 0⟩ (fun _ _ => false)
        (fun _ _ => false) 0 0 (fun _ _ => 0) (fun _ _ => 0) (fun _ _ => 0)
        (fun _ _ => false) (fun b _ _ _ _ => b)).bt_normalized_dem = none :=
  ⟨by decide, rfl⟩

/-- C5 (amended): when the clear-pixel count exceeds the threshold (so the
guard branch is not taken), the cloud mask returned by
`detect_potential_clouds` is false on nodata, and every cloud pixel is
either a potential cloud pixel or flagged by the extremely-cold override
(DEM-normalised BT below `temp_test_low − 3500`); this holds for every
behaviour of the sampled BT–DEM regression `normBt`. -/
theorem cloud_subset_pcp_or_cold (h w : ℕ)
    (swir1 : ℕ → ℕ → ℚ) (cirrus bt dem : Option (ℕ → ℕ → ℚ))
    (pcp : PCPData) (nodata_mask water : ℕ → ℕ → Bool)
    (tw τ : ℚ) (ndsi ndvi ndbi : ℕ → ℕ → ℚ) (vis : ℕ → ℕ → Bool)
    (normBt : (ℕ → ℕ → ℚ) → (ℕ → ℕ → ℚ) → (ℕ → ℕ → Bool) → ℚ → ℚ → (ℕ → ℕ → ℚ))
    (threshold : ℕ) (lowp highp : ℚ)
    (hsum : threshold < countMask h w
      (fun i j => !(pcp.potential_pixels i j) && !(nodata_mask i j)))
    (i j : ℕ) :
    (nodata_mask i j = true →
      (detect_potential_clouds h w swir1 cirrus bt dem pcp nodata_mask water
        tw τ ndsi ndvi ndbi vis normBt threshold lowp highp).cloud i j = 0) ∧
    ((detect_potential_clouds h w swir1 cirrus bt dem pcp nodata_mask water
        tw τ ndsi ndvi ndbi vis normBt threshold lowp highp).cloud i j ≠ 0 →
      pcp.potential_pixels i j = true ∨
      ∃ btn, (detect_potential_clouds h w swir1 cirrus bt dem pcp nodata_mask water
          tw τ ndsi ndvi ndbi vis normBt threshold lowp highp).bt_normalized_dem
            = some btn ∧
        btn i j < (detect_potential_clouds h w swir1 cirrus bt dem pcp nodata_mask
          water tw τ ndsi ndvi ndbi vis normBt threshold lowp highp).temp_test_low
            - 3500) := by
  have hc : detect_potential_clouds h w swir1 cirrus bt dem pcp nodata_mask water
      tw τ ndsi ndvi ndbi vis normBt threshold lowp highp =
      mainBranch h w swir1 cirrus bt dem pcp nodata_mask water tw τ ndsi ndvi ndbi
        vis normBt lowp highp
        (countMask h w (fun i j => !(pcp.potential_pixels i j) && !(nodata_mask i j)))
        (fun i j => !(pcp.potential_pixels i j) && !(nodata_mask i j))
        (fun i j => (!(pcp.potential_pixels i j) && !(nodata_mask i j)) && !(water i j))
        (fun i j => (!(pcp.potential_pixels i j) && !(nodata_mask i j)) && water i j) := by
    rw [detect_potential_clouds]
    exact if_neg (not_le.mpr hsum)
  rw [hc]
  rcases bt with _ | btg <;> rcases dem with _ | demg <;>
    simp only [mainBranch, landBranch] <;>
    refine ⟨fun hnd => by simp [hnd], fun hne => ?_⟩ <;>
    rw [ne_eq] at hne
  case none.none =>
    by_cases hnd : nodata_mask i j
    · simp [hnd] at hne
    · simp only [hnd, if_false] at hne
      by_cases hfc : pcp.potential_pixels i j
      · exact Or.inl hfc
      · simp [hfc] at hne
  case none.some =>
    by_cases hnd : nodata_mask i j
    · simp [hnd] at hne
    · simp only [hnd, if_false] at hne
      by_cases hfc : pcp.potential_pixels i j
      · exact Or.inl hfc
      · simp [hfc] at hne
  case some.none =>
    by_cases hnd : nodata_mask i j
    · simp [hnd] at hne
    · simp only [hnd, if_false] at hne
      by_cases hfc : pcp.potential_pixels i j
      · exact Or.inl hfc
      · simp [hfc] at hne
  case some.some =>
    by_cases hnd : nodata_mask i j
    · simp [hnd] at hne
    · rcases hB : pcp.potential_pixels i j with _ | _
      · rw [if_neg hnd] at hne
        simp only [hB, Bool.false_and, Bool.false_or, Option.getD_some] at hne
        refine Or.inr ⟨_, rfl, ?_⟩
        by_contra hlt
        rw [decide_eq_false hlt] at hne
        simp at hne
      · exact Or.inl rfl

/-- Witness for C5 (amended): a 1×1 scene with one clear pixel and
threshold 0 (1 > 0, so the main branch runs); with PCP constantly false,
no BT and no DEM, the subset theorem forces the returned cloud mask to be
0 at the pixel. -/
theorem cloud_subset_pcp_or_cold_witness :
    (detect_potential_clouds 1 1 (fun _ _ => 0) none none none
        ⟨fun _ _ => false, fun _ _ => 0, fun _ _ => 0⟩ (fun _ _ => false)
        (fun _ _ => false) 0 0 (fun _ _ => 0) (fun _ _ => 0) (fun _ _ => 0)
        (fun _ _ => false) (fun b _ _ _ _ => b) 0).cloud 0 0 = 0 := by
  have h := cloud_subset_pcp_or_cold 1 1 (fun _ _ => 0) none none none
    ⟨fun _ _ => false, fun _ _ => 0, fun _ _ => 0⟩ (fun _ _ => false)
    (fun _ _ => false) 0 0 (fun _ _ => 0) (fun _ _ => 0) (fun _ _ => 0)
    (fun _ _ => false) (fun b _ _ _ _ => b) 0 (175 / 1000) (825 / 1000)
    (by decide) 0 0
  by_contra hne
  rcases h.2 hne with hp | ⟨btn, hbtn, _⟩
  · exact absurd hp (by decide)
  · exact Option.noConfusion hbtn

/-- Counterexample for C2: a 1×1 scene whose BT band is present (constant
2000) but which has no DEM; the main branch runs (threshold 0) and the
land probability comes out of the HOT path (HOT = 500 gives probability
100·(1·1·0.5) = 50 through `land_brightness_probability_hot`), while the
temperature path is not taken: `temp_test_low = temp_test_high = 0` (the
temperature path would have produced `temp_test_high ≥ temp_test_low +
800` from the ±400 widening) and no DEM-normalised BT is computed. -/
theorem land_branch_with_bt_counterexample :
    (detect_potential_clouds 1 1 (fun _ _ => 0) none (some (fun _ _ => 2000)) none
        ⟨fun _ _ => false, fun _ _ => 0, fun _ _ => 500⟩ (fun _ _ => false)
        (fun _ _ => false) 0 0 (fun _ _ => 0) (fun _ _ => 0) (fun _ _ => 0)
        (fun _ _ => false) (fun b _ _ _ _ => b) 0).over_land_probability 0 0 = 50 ∧
    (detect_potential_clouds 1 1 (fun _ _ => 0) none (some (fun _ _ => 2000)) none
        ⟨fun _ _ => false, fun _ _ => 0, fun _ _ => 500⟩ (fun _ _ => false)
        (fun _ _ => false) 0 0 (fun _ _ => 0) (fun _ _ => 0) (fun _ _ => 0)
        (fun _ _ => false) (fun b _ _ _ _ => b) 0).temp_test_low = 0 ∧
    (detect_potential_clouds 1 1 (fun _ _ => 0) none (some (fun _ _ => 2000)) none
        ⟨fun _ _ => false, fun _ _ => 0, fun _ _ => 500⟩ (fun _ _ => false)
        (fun _ _ => false) 0 0 (fun _ _ => 0) (fun _ _ => 0) (fun _ _ => 0)
        (fun _ _ => false) (fun b _ _ _ _ => b) 0).temp_test_high = 0 ∧
    (detect_potential_clouds 1 1 (fun _ _ => 0) none (some (fun _ _ => 2000)) none
        ⟨fun _ _ => false, fun _ _ => 0, fun _ _ => 500⟩ (fun _ _ => false)
        (fun _ _ => false) 0 0 (fun _ _ => 0) (fun _ _ => 0) (fun _ _ => 0)
        (fun _ _ => false) (fun b _ _ _ _ => b) 0).bt_normalized_dem = none :=
  ⟨by decide, by decide, by decide, rfl⟩

/-- C2 (amended): the temperature path of the land branch is taken only
when both BT and DEM are present.  When the DEM is absent, the result of
`detect_potential_clouds` is in its land-branch outputs identical to a run
without BT: the over-land probability raster comes from the HOT brightness
path, `temp_test_low = temp_test_high = 0`, and no DEM-normalised BT is
produced, whatever the BT band contains. -/
theorem land_branch_needs_dem (h w : ℕ)
    (swir1 : ℕ → ℕ → ℚ) (cirrus b : Option (ℕ → ℕ → ℚ))
    (pcp : PCPData) (nodata_mask water : ℕ → ℕ → Bool)
    (tw τ : ℚ) (ndsi ndvi ndbi : ℕ → ℕ → ℚ) (vis : ℕ → ℕ → Bool)
    (normBt : (ℕ → ℕ → ℚ) → (ℕ → ℕ → ℚ) → (ℕ → ℕ → Bool) → ℚ → ℚ → (ℕ → ℕ → ℚ))
    (threshold : ℕ) (lowp highp : ℚ) :
    (detect_potential_clouds h w swir1 cirrus b none pcp nodata_mask water
        tw τ ndsi ndvi ndbi vis normBt threshold lowp highp).over_land_probability =
      (detect_potential_clouds h w swir1 cirrus none none pcp nodata_mask water
        tw τ ndsi ndvi ndbi vis normBt threshold lowp highp).over_land_probability ∧
    (detect_potential_clouds h w swir1 cirrus b none pcp nodata_mask water
        tw τ ndsi ndvi ndbi vis normBt threshold lowp highp).temp_test_low = 0 ∧
    (detect_potential_clouds h w swir1 cirrus b none pcp nodata_mask water
        tw τ ndsi ndvi ndbi vis normBt threshold lowp highp).temp_test_high = 0 ∧
    (detect_potential_clouds h w swir1 cirrus b none pcp nodata_mask water
        tw τ ndsi ndvi ndbi vis normBt threshold lowp highp).bt_normalized_dem
      = none := by
  rw [detect_potential_clouds, detect_potential_clouds]
  by_cases hsum : countMask h w
      (fun i j => !(pcp.potential_pixels i j) && !(nodata_mask i j)) ≤ threshold
  · rw [if_pos hsum, if_pos hsum]
    exact ⟨rfl, rfl, rfl, rfl⟩
  · rw [if_neg hsum, if_neg hsum]
    rcases b with _ | btg
    · exact ⟨rfl, rfl, rfl, rfl⟩
    · exact ⟨rfl, rfl, rfl, rfl⟩

/-- Counterexample for C6: a 1×2 scene where the clear-water pixel has BT
1000 and the probed pixel has BT 0.  The water-temperature probability at
the probed pixel is (1000 − 0)/400 = 5/2, which exceeds 1: the raster is
not clamped above at 1. -/
theorem water_temperature_probability_counterexample :
    water_temperature_probability 1 2 (fun _ j => if j = 0 then 0 else 1000)
      (fun _ j => j == 1) (825 / 1000) 0 0 = 5 / 2 ∧
    ¬ (water_temperature_probability 1 2 (fun _ j => if j = 0 then 0 else 1000)
      (fun _ j => j == 1) (825 / 1000) 0 0 ≤ 1) :=
  ⟨by decide, by decide⟩

/-- C6 (amended): the water-temperature probability raster is clamped
below at 0 (hence finite and non-negative everywhere, given that the
clear-water selection is non-empty so that the percentile is defined), but
it is not clamped above at 1. -/
theorem water_temperature_probability_nonneg (h w : ℕ) (bt : ℕ → ℕ → ℚ)
    (clear_water_mask : ℕ → ℕ → Bool) (high_percent : ℚ)
    (hne : 0 < countMask h w clear_water_mask) (i j : ℕ) :
    0 ≤ water_temperature_probability h w bt clear_water_mask high_percent i j := by
  rw [water_temperature_probability]
  dsimp only
  split
  · exact le_refl 0
  · linarith [not_lt.mp (by assumption :
      ¬ ((percentileQ (maskedVals h w clear_water_mask bt) (100 * high_percent)
        - bt i j) / 400 < 0))]

/-- Witness for C6 (amended): the non-negativity theorem applied to the
1×2 scene of the counterexample, at the clear-water pixel itself. -/
theorem water_temperature_probability_nonneg_witness :
    0 ≤ water_temperature_probability 1 2 (fun _ j => if j = 0 then 0 else 1000)
      (fun _ j => j == 1) (825 / 1000) 0 1 :=
  water_temperature_probability_nonneg 1 2 (fun _ j => if j = 0 then 0 else 1000)
    (fun _ j => j == 1) (825 / 1000) (by decide) 0 1

set_option maxRecDepth 100000 in
/-- C3: on a 10×10 scene with a DEM of 100 valid pixels all at elevation 0
(so the single elevation bin [0, 100) contains every pixel), a cloudy
pixel with CIRRUS 150 and clear-sky pixels with CIRRUS 0, the source's
stratified branch leaves the cloudy pixel at 0 — its CIRRUS value 150
falls in no bin because the code compares CIRRUS, not elevation, against
the elevation-derived bin bounds — whereas the spec's elevation
stratification normalises it to 150 − 0 = 150. -/
theorem normalize_cirrus_dem_bins_by_cirrus :
    normalize_cirrus_dem 10 10 (fun i j => i == 0 && j == 0)
      (fun i j => if i == 0 && j == 0 then 150 else 0) (fun _ _ => false)
      (some (fun _ _ => 0)) 2 0 0 = 0 ∧
    normalize_cirrus_dem_spec 10 10 (fun i j => i == 0 && j == 0)
      (fun i j => if i == 0 && j == 0 then 150 else 0) (fun _ _ => false)
      (some (fun _ _ => 0)) 2 0 0 = 150 :=
  ⟨by decide, by decide⟩

/-- Truncation toward zero differs from its argument by less than 1. -/
theorem abs_truncR_sub_lt_one (x : ℝ) : |(truncR x : ℝ) - x| < 1 := by
  rw [truncR]
  split
  · rw [abs_lt]
    constructor
    · linarith [Int.sub_one_lt_floor x]
    · linarith [Int.floor_le x]
  · rw [abs_lt]
    constructor
    · linarith [Int.le_ceil x]
    · linarith [Int.ceil_lt_add_one x]

/-- At `sun_elevation = 45°`, `sun_azimuth = 90°` the displacement pair is
exactly `(int(−H), 0)`: `tan(π/4) = 1`, `sin(π/2) = 1`, `cos(π/2) = 0`. -/
theorem shadow_at_45_90 (H : ℝ) : shadow H 45 90 = (truncR (-H), 0) := by
  have h45 : (45 : ℝ) * Real.pi / 180 = Real.pi / 4 := by ring
  have h90 : (90 : ℝ) * Real.pi / 180 = Real.pi / 2 := by ring
  simp only [shadow]
  rw [h45, h90, Real.tan_pi_div_four, Real.sin_pi_div_two, Real.cos_pi_div_two]
  rw [div_one, mul_one, mul_zero]
  have h0 : truncR 0 = 0 := by
    rw [truncR, if_pos le_rfl]
    exact Int.floor_zero
  rw [h0]

/-- Counterexample for C8: at height `H = 2^32` pixels, elevation 45° and
azimuth 90°, `shadow` returns `dx = −2^32`, which does not fit an `i32`
(it is below `−2^31`): no clamp to the `i32` range exists in the code. -/
theorem shadow_no_i32_clamp_counterexample :
    (shadow (2 ^ 32) 45 90).1 = -(2 ^ 32) ∧ -(2 ^ 32 : ℤ) < -(2 ^ 31) := by
  constructor
  · rw [shadow_at_45_90]
    have hc : (-(2 ^ 32 : ℝ)) = ((-(2 ^ 32) : ℤ) : ℝ) := by push_cast; ring
    rw [hc, truncR, if_neg (by norm_num), Int.ceil_intCast]
  · norm_num

/-- C8 (amended): `shadow(H, el, az)` returns the displacements
`−(H/tan(el))·sin(az)` and `(H/tan(el))·cos(az)` truncated toward zero
(each within 1 of the untruncated real value), and no clamping is applied:
the first displacement takes values below any integer bound as the height
grows (at elevation 45° and azimuth 90° it is exactly `int(−H)`), so the
displacements need not fit an `i32`. -/
theorem shadow_truncation_and_unbounded :
    (∀ H el az : ℝ,
      |((shadow H el az).1 : ℝ) -
        (-(H / Real.tan (el * Real.pi / 180)) * Real.sin (az * Real.pi / 180))| < 1 ∧
      |((shadow H el az).2 : ℝ) -
        (H / Real.tan (el * Real.pi / 180)) * Real.cos (az * Real.pi / 180)| < 1) ∧
    (∀ B : ℤ, ∃ H : ℝ, (shadow H 45 90).1 < B) := by
  constructor
  · intro H el az
    exact ⟨abs_truncR_sub_lt_one _, abs_truncR_sub_lt_one _⟩
  · intro B
    refine ⟨((|B| + 1 : ℤ) : ℝ), ?_⟩
    rw [shadow_at_45_90]
    have hc : (-(((|B| + 1 : ℤ)) : ℝ)) = ((-(|B| + 1) : ℤ) : ℝ) := by push_cast; ring
    have habs : (0 : ℤ) ≤ |B| := abs_nonneg B
    have hneg : ¬ (0 : ℝ) ≤ -(((|B| + 1 : ℤ)) : ℝ) := by
      push_cast
      intro hcon
      linarith [abs_nonneg (B : ℝ)]
    rw [hc] at hneg
    rw [hc, truncR, if_neg hneg, Int.ceil_intCast]
    show (-(|B| + 1) : ℤ) < B
    linarith [neg_abs_le B]

/-- C9: whenever `sum_clear_pixels` is strictly below the pixel limit
(40 000 by default), the cloud-shadow stage returns the complement of the
cloud mask — `cloud_shadow[p] = 1` exactly where `cloud[p] = 0` — and this
holds for every potential-shadow detector and every matcher, which are
therefore never consulted. -/
theorem cloud_shadow_complement_under_heavy_cloud {P Dem Psh : Type}
    (platform_data : P) (dem_data : Option Dem)
    (potential_clouds : PotentialCloudsResult)
    (cloud : MaskGrid) (all_water : IGrid)
    (detector : P → Option Dem → MaskGrid → Psh)
    (matcher : MaskGrid → ℕ → IGrid → Psh → P → Option Dem → ℚ → ℚ → IGrid)
    (pixel_limit : ℕ)
    (hlt : potential_clouds.sum_clear_pixels < pixel_limit) (i j : ℕ) :
    run_cloud_shadow_detection platform_data dem_data potential_clouds cloud
        all_water detector matcher pixel_limit i j =
      (if cloud i j = false then 1 else 0) := by
  rw [run_cloud_shadow_detection, if_pos hlt]

/-- Witness for C9: a run with zero clear pixels (0 < 40 000) and an
all-false cloud mask; whatever the matcher would return (here the constant
7), the stage returns the complement value 1. -/
theorem cloud_shadow_complement_witness :
    @run_cloud_shadow_detection Unit Unit Unit () none
      { sum_clear_pixels := 0, cloud := fun _ _ => 0, clear_land := fun _ _ => false
        over_land_probability := fun _ _ => 0, over_water_probability := fun _ _ => 0 }
      (fun _ _ => false) (fun _ _ => 0)
      (fun _ _ _ => ()) (fun _ _ _ _ _ _ _ _ => fun _ _ => 7) 40000 0 0 = 1 := by
  have h := @cloud_shadow_complement_under_heavy_cloud Unit Unit Unit () none
    { sum_clear_pixels := 0, cloud := fun _ _ => 0, clear_land := fun _ _ => false
      over_land_probability := fun _ _ => 0, over_water_probability := fun _ _ => 0 }
    (fun _ _ => false) (fun _ _ => 0)
    (fun _ _ _ => ()) (fun _ _ _ _ _ _ _ _ => fun _ _ => 7) 40000
    (by decide) 0 0
  simpa using h

/-- C10: the absolute-snow raster never influences any other output of
`FMask.run`: two runs that differ only in the absolute-snow detector
produce identical snow, water, all-water, cloud, cloud-shadow and final
results rasters (for every choice of the remaining stage functions). -/
theorem absolute_snow_has_no_downstream_effect {P Dem Gswo Pcp Psh : Type}
    (st : FMaskStages P Dem Gswo Pcp Psh)
    (platform_data : P) (dem_data : Option Dem) (gswo_data : Option Gswo)
    (sensor : String) (nodata_mask vis_saturation : MaskGrid)
    (probability_weight cloud_threshold : ℚ) (erode_pixels : ℕ)
    (dilated_cloud_px dilated_shadow_px dilated_snow_px : ℕ)
    (water_value snow_value cloud_shadow_value cloud_value : ℕ)
    (d1 d2 : String → MaskGrid → P → MaskGrid → Raster → MaskGrid) :
    (fmask_run st platform_data dem_data gswo_data sensor nodata_mask
        vis_saturation probability_weight cloud_threshold erode_pixels
        dilated_cloud_px dilated_shadow_px dilated_snow_px
        water_value snow_value cloud_shadow_value cloud_value d1).snow =
      (fmask_run st platform_data dem_data gswo_data sensor nodata_mask
        vis_saturation probability_weight cloud_threshold erode_pixels
        dilated_cloud_px dilated_shadow_px dilated_snow_px
        water_value snow_value cloud_shadow_value cloud_value d2).snow ∧
    (fmask_run st platform_data dem_data gswo_data sensor nodata_mask
        vis_saturation probability_weight cloud_threshold erode_pixels
        dilated_cloud_px dilated_shadow_px dilated_snow_px
        water_value snow_value cloud_shadow_value cloud_value d1).water =
      (fmask_run st platform_data dem_data gswo_data sensor nodata_mask
        vis_saturation probability_weight cloud_threshold erode_pixels
        dilated_cloud_px dilated_shadow_px dilated_snow_px
        water_value snow_value cloud_shadow_value cloud_value d2).water ∧
    (fmask_run st platform_data dem_data gswo_data sensor nodata_mask
        vis_saturation probability_weight cloud_threshold erode_pixels
        dilated_cloud_px dilated_shadow_px dilated_snow_px
        water_value snow_value cloud_shadow_value cloud_value d1).all_water =
      (fmask_run st platform_data dem_data gswo_data sensor nodata_mask
        vis_saturation probability_weight cloud_threshold erode_pixels
        dilated_cloud_px dilated_shadow_px dilated_snow_px
        water_value snow_value cloud_shadow_value cloud_value d2).all_water ∧
    (fmask_run st platform_data dem_data gswo_data sensor nodata_mask
        vis_saturation probability_weight cloud_threshold erode_pixels
        dilated_cloud_px dilated_shadow_px dilated_snow_px
        water_value snow_value cloud_shadow_value cloud_value d1).cloud =
      (fmask_run st platform_data dem_data gswo_data sensor nodata_mask
        vis_saturation probability_weight cloud_threshold erode_pixels
        dilated_cloud_px dilated_shadow_px dilated_snow_px
        water_value snow_value cloud_shadow_value cloud_value d2).cloud ∧
    (fmask_run st platform_data dem_data gswo_data sensor nodata_mask
        vis_saturation probability_weight cloud_threshold erode_pixels
        dilated_cloud_px dilated_shadow_px dilated_snow_px
        water_value snow_value cloud_shadow_value cloud_value d1).cloud_shadow =
      (fmask_run st platform_data dem_data gswo_data sensor nodata_mask
        vis_saturation probability_weight cloud_threshold erode_pixels
        dilated_cloud_px dilated_shadow_px dilated_snow_px
        water_value snow_value cloud_shadow_value cloud_value d2).cloud_shadow ∧
    (fmask_run st platform_data dem_data gswo_data sensor nodata_mask
        vis_saturation probability_weight cloud_threshold erode_pixels
        dilated_cloud_px dilated_shadow_px dilated_snow_px
        water_value snow_value cloud_shadow_value cloud_value d1).results =
      (fmask_run st platform_data dem_data gswo_data sensor nodata_mask
        vis_saturation probability_weight cloud_threshold erode_pixels
        dilated_cloud_px dilated_shadow_px dilated_snow_px
        water_value snow_value cloud_shadow_value cloud_value d2).results :=
  ⟨rfl, rfl, rfl, rfl, rfl, rfl⟩

/-- Lookup of a materialised grid: in-bounds it is the tabulated function,
0 outside. -/
theorem lget_tabulate (h w : ℕ) (f : ℕ → ℕ → ℕ) (i j : ℕ) :
    lget (tabulate h w f) i j = if i < h ∧ j < w then f i j else 0 := by
  unfold lget tabulate
  by_cases hi : i < h
  · have h1 : ((List.range h).map (fun i => (List.range w).map (f i))).getD i [] =
        (List.range w).map (f i) := by
      rw [List.getD_eq_getElem _ _ (by simpa using hi)]
      simp
    rw [h1]
    by_cases hj : j < w
    · rw [List.getD_eq_getElem _ _ (by simpa using hj)]
      simp [hi, hj]
    · rw [List.getD_eq_default _ _ (by simpa using not_lt.mp hj)]
      simp [hj]
  · have h1 : ((List.range h).map (fun i => (List.range w).map (f i))).getD i [] =
        [] := by
      apply List.getD_eq_default
      simpa using not_lt.mp hi
    rw [h1]
    simp [hi]

/-- Propagated labels are nonzero only on the mask. -/
theorem labelIter_support (h w : ℕ) (m : MaskGrid) (n : ℕ) :
    ∀ L : List (List ℕ), (∀ i j, lget L i j ≠ 0 → m i j = true) →
    ∀ i j, lget (labelIter h w m n L) i j ≠ 0 → m i j = true := by
  induction n with
  | zero => intro L hL i j; exact hL i j
  | succ n ih =>
    intro L hL i j
    rw [labelIter]
    refine ih _ (fun a b hab => ?_) i j
    rw [lget_tabulate] at hab
    by_cases hb : a < h ∧ b < w
    · rw [if_pos hb] at hab
      rw [labelStep] at hab
      by_cases hm : a < h ∧ b < w ∧ m a b
      · exact hm.2.2
      · rw [if_neg hm] at hab
        exact absurd rfl hab
    · rw [if_neg hb] at hab
      exact absurd rfl hab

/-- Component labels are nonzero only on the mask. -/
theorem componentLabel_support (h w : ℕ) (m : MaskGrid) (i j : ℕ) :
    componentLabel h w m i j ≠ 0 → m i j = true := by
  rw [componentLabel]
  refine labelIter_support h w m (h * w) _ (fun a b hab => ?_) i j
  rw [lget_tabulate] at hab
  by_cases hb : a < h ∧ b < w
  · rw [if_pos hb] at hab
    rw [labelInit] at hab
    by_cases hm : a < h ∧ b < w ∧ m a b
    · exact hm.2.2
    · rw [if_neg hm] at hab
      exact absurd rfl hab
  · rw [if_neg hb] at hab
    exact absurd rfl hab

/-- A remaining-cloud pixel lies in the original cloud mask. -/
theorem cloudRemaining_support (h w : ℕ) (m : MaskGrid) (ae : MaskGrid) (i j : ℕ)
    (hcr : cloudRemaining h w (componentLabel h w m) ae i j = true) :
    m i j = true := by
  rw [cloudRemaining] at hcr
  have h1 := (Bool.and_eq_true _ _).mp hcr
  exact componentLabel_support h w m i j (of_decide_eq_true h1.1)

/-- `remove_small_objects` only removes pixels. -/
theorem remove_small_objects_subset (h w : ℕ) (m : MaskGrid) (k : ℕ) (i j : ℕ)
    (hr : remove_small_objects h w m k i j = true) : m i j = true := by
  rw [remove_small_objects] at hr
  have h1 := (Bool.and_eq_true _ _).mp hr
  exact componentLabel_support h w m i j (of_decide_eq_true h1.1)

/-- `erode_commissons` never adds cloud pixels: its output is contained in
the input cloud mask. -/
theorem erode_commissons_subset (h w : ℕ) (cdi : Option Raster) (pc : IGrid)
    (pfp : MaskGrid) (water : IGrid) (r : ℕ) (i j : ℕ)
    (happ : erode_commissons h w cdi pc pfp water r i j = true) :
    0 < pc i j := by
  rcases cdi with _ | cdig <;> simp only [erode_commissons] at happ
  case none =>
    rcases (Bool.or_eq_true _ _).mp happ with hA | hB
    · exact of_decide_eq_true
        (cloudRemaining_support h w _ _ i j ((Bool.and_eq_true _ _).mp hA).2)
    · exact of_decide_eq_true ((Bool.and_eq_true _ _).mp hB).2
  case some =>
    have h3 := remove_small_objects_subset h w _ 3 i j happ
    split at h3
    · exact absurd h3 (by simp)
    · rcases (Bool.or_eq_true _ _).mp h3 with hA | hB
      · exact of_decide_eq_true
          (cloudRemaining_support h w _ _ i j ((Bool.and_eq_true _ _).mp hA).2)
      · exact of_decide_eq_true ((Bool.and_eq_true _ _).mp hB).2

set_option maxRecDepth 40000 in
/-- Counterexample for C7: on a 5×5 scene with the J-shaped cloud
`jCloud`, false-positive candidates everywhere except (1, 1), no water,
no CDI and erode radius 1, the first application keeps pixel (3, 1) — it
is within the re-dilation reach of the surviving pixel (1, 1) and its
component survives — but the second application removes it: (3, 1) is now
an isolated component of the output with no surviving pixel of its own.
`erode_commissons` is not idempotent. -/
theorem erode_commissons_not_idempotent :
    erode_commissons 5 5 none jCloud jFalsePos (fun _ _ => 0) 1 3 1 = true ∧
    erode_commissons 5 5 none
      (fun a b => if erode_commissons 5 5 none jCloud jFalsePos (fun _ _ => 0) 1 a b
        then 1 else 0) jFalsePos (fun _ _ => 0) 1 3 1 = false := by
  constructor
  · decide
  · decide

/-- C7 (amended): re-applying `erode_commissons` to its own output (with
the same false-positive, water, CDI and radius arguments) yields a
sub-mask of the single application — the cleanup only ever removes cloud
pixels — but not necessarily the same mask. -/
theorem erode_commissons_reapplication_subset (h w : ℕ) (cdi : Option Raster)
    (pc : IGrid) (pfp : MaskGrid) (water : IGrid) (r : ℕ) (i j : ℕ)
    (happ : erode_commissons h w cdi
        (fun a b => if erode_commissons h w cdi pc pfp water r a b then 1 else 0)
        pfp water r i j = true) :
    erode_commissons h w cdi pc pfp water r i j = true := by
  have h1 := erode_commissons_subset h w cdi
    (fun a b => if erode_commissons h w cdi pc pfp water r a b then 1 else 0)
    pfp water r i j happ
  by_cases hf : erode_commissons h w cdi pc pfp water r i j = true
  · exact hf
  · rw [Bool.not_eq_true] at hf
    simp [hf] at h1

set_option maxRecDepth 40000 in
/-- Witness for C7 (amended): the containment theorem applied to the 5×5
counterexample scene at pixel (1, 1), which survives both applications. -/
theorem erode_commissons_reapplication_subset_witness :
    erode_commissons 5 5 none jCloud jFalsePos (fun _ _ => 0) 1 1 1 = true :=
  erode_commissons_reapplication_subset 5 5 none jCloud jFalsePos
    (fun _ _ => 0) 1 1 1 (by decide)
